import Mathlib

/-!
Shallow embedding of the behavioral-biometrics risk engine
(`backend/src/data_processing/feature_extractor.py`,
`backend/src/ml_models/anomaly_detector.py`,
`backend/src/profiling/user_profiler.py`, `backend/app.py`).

Conventions of the embedding:
* Python floats are modelled as exact rationals (`ℚ`).
* Python dicts with string keys and numeric values are modelled as
  insertion-ordered association lists (`FDict`); `dict.get(k, d)` is `dget`,
  `k in dict` is `dmem`, `dict[k] = v` is `dinsert`.
* `math`/`numpy` transcendental primitives (`np.sqrt` inside `np.std` and the
  path-length computation, `np.arctan2`) have no exact rational counterpart;
  the extractor is parameterised over them (`sqrtF`, `atan2F`).  No claim
  checked in this file constrains a value that passes through them.
-/

/-- A Python dict with string keys and float values, modelled as an
insertion-ordered association list (first occurrence of a key wins). -/
abbrev FDict := List (String × ℚ)

/-- `d.get(k, dflt)`: value of the first entry with key `k`, else `dflt`. -/
def dget (d : FDict) (k : String) (dflt : ℚ) : ℚ :=
  match d.find? (fun p => p.1 == k) with
  | some p => p.2
  | none => dflt

/-- `k in d`. -/
def dmem (d : FDict) (k : String) : Bool :=
  (d.find? (fun p => p.1 == k)).isSome

/-- `d[k] = v`: overwrite the first entry with key `k` in place, else append. -/
def dinsert (d : FDict) (k : String) (v : ℚ) : FDict :=
  match d with
  | [] => [(k, v)]
  | p :: rest => if p.1 == k then (k, v) :: rest else p :: dinsert rest k v

theorem dget_nil (k : String) (dflt : ℚ) : dget [] k dflt = dflt := rfl

theorem dget_cons (p : String × ℚ) (d : FDict) (k : String) (dflt : ℚ) :
    dget (p :: d) k dflt = if p.1 == k then p.2 else dget d k dflt := by
  by_cases h : p.1 == k <;> simp [dget, List.find?, h]

theorem dmem_cons (p : String × ℚ) (d : FDict) (k : String) :
    dmem (p :: d) k = (p.1 == k || dmem d k) := by
  by_cases h : p.1 == k <;> simp [dmem, List.find?, h]

theorem dmem_dinsert (d : FDict) (k k' : String) (v : ℚ) :
    dmem (dinsert d k v) k' = (dmem d k' || k == k') := by
  induction d with
  | nil =>
      simp only [dinsert, dmem_cons, dmem, List.find?]
      by_cases h : k = k'
      · simp [h]
      · have hb : (k == k') = false := by simpa using h
        simp [hb]
  | cons p rest ih =>
      by_cases h : p.1 == k
      · simp only [dinsert, h, if_true, dmem_cons]
        have hk : p.1 = k := by simpa using h
        subst hk
        cases hmem : dmem rest k' <;> simp [BEq.comm]
      · simp [dinsert, h, dmem_cons, ih, Bool.or_assoc]

/-- A key holding a nonzero value makes the dict have a non-falsy value
(`any(d.values())` in Python is true). -/
theorem all_falsy_eq_false_of_dget_ne (d : FDict) (k : String)
    (h : dget d k 0 ≠ 0) : d.all (fun p => p.2 == 0) = false := by
  induction d with
  | nil => simp [dget] at h
  | cons p rest ih =>
      rw [dget_cons] at h
      by_cases hk : p.1 == k
      · rw [if_pos hk] at h
        simp [List.all_cons, h]
      · rw [if_neg hk] at h
        simp [List.all_cons, ih h]

/-! ## Decision policy (`backend/app.py`, lines 271-294)

`collect_behavior` derives `action_taken` from `risk_score` alone:
`risk_score >= 0.8` denies, `elif risk_score >= 0.5` requires a second
factor, otherwise it allows.  The DB side effects in those branches do not
feed back into the chosen action, so the policy is a pure function. -/

/-- The action chosen by `collect_behavior` for a given risk score. -/
def decide_action (risk_score : ℚ) : String :=
  if risk_score ≥ 8/10 then "deny_access"
  else if risk_score ≥ 5/10 then "require_2fa"
  else "allow"

/-- C3: the decision policy is a pure function sending `score ≥ 0.8` to
`deny_access`, `0.5 ≤ score < 0.8` to `require_2fa` and `score < 0.5` to
`allow`; boundaries go to the higher-severity bucket: `0.8 ↦ deny_access`,
`0.5 ↦ require_2fa`, and just below each boundary (`0.79999`, `0.49999`)
the lower bucket applies. -/
theorem C3_decision_policy (s : ℚ) :
    (s ≥ 8/10 → decide_action s = "deny_access") ∧
    (5/10 ≤ s ∧ s < 8/10 → decide_action s = "require_2fa") ∧
    (s < 5/10 → decide_action s = "allow") ∧
    decide_action (8/10) = "deny_access" ∧
    decide_action (79999/100000) = "require_2fa" ∧
    decide_action (5/10) = "require_2fa" ∧
    decide_action (49999/100000) = "allow" := by
  refine ⟨fun h => ?_, fun h => ?_, fun h => ?_, ?_, ?_, ?_, ?_⟩
  · simp [decide_action, h]
  · rw [decide_action, if_neg (by linarith [h.2]), if_pos h.1]
  · rw [decide_action, if_neg (by linarith), if_neg (by linarith)]
  · norm_num [decide_action]
  · norm_num [decide_action]
  · norm_num [decide_action]
  · norm_num [decide_action]

/-- C3 witness: instantiation at score `0.8`. -/
theorem C3_decision_policy_witness :
    (8/10 : ℚ) ≥ 8/10 ∧ decide_action (8/10) = "deny_access" :=
  ⟨by norm_num, (C3_decision_policy (8/10)).1 (by norm_num)⟩

/-- Python's binary `min(a, b)`: returns `b` exactly when `b < a`. -/
def pymin (a b : ℚ) : ℚ := if b < a then b else a

/-- Python's binary `max(a, b)`: returns `b` exactly when `b > a`. -/
def pymax (a b : ℚ) : ℚ := if a < b then b else a

theorem pymin_eq_min (a b : ℚ) : pymin a b = min a b := by
  rw [pymin, min_def]
  by_cases h : b < a
  · rw [if_pos h, if_neg (by linarith)]
  · rw [if_neg h, if_pos (by linarith)]

theorem pymax_eq_max (a b : ℚ) : pymax a b = max a b := by
  rw [pymax, max_def]
  rcases lt_trichotomy a b with h | h | h
  · rw [if_pos h, if_pos h.le]
  · subst h; simp
  · rw [if_neg (by linarith), if_neg (by linarith)]

/-- Python's `abs(a)`. -/
def pyabs (a : ℚ) : ℚ := if a < 0 then -a else a

theorem pyabs_eq_abs (a : ℚ) : pyabs a = |a| := by
  rw [pyabs]
  by_cases h : a < 0
  · rw [if_pos h, abs_of_neg h]
  · rw [if_neg h, abs_of_nonneg (by linarith)]

/-! ## Rule-based risk scorer (`backend/src/ml_models/anomaly_detector.py`) -/

/-- `FEATURE_ORDER` (anomaly_detector.py, lines 10-15). -/
def FEATURE_ORDER : List String :=
  ["avg_dwell_time_ms", "std_dwell_time_ms", "avg_flight_time_ms",
   "std_flight_time_ms", "typing_speed_cps", "mouse_total_movements",
   "mouse_total_clicks", "mouse_total_path_length", "mouse_avg_speed_px_per_s",
   "mouse_avg_angle_change_rad", "mouse_std_angle_change_rad",
   "session_duration_ms"]

/-- The `sensitivity` table of `calculate_rule_based_risk_score`
(anomaly_detector.py, lines 29-41).  It has 11 entries:
`mouse_std_angle_change_rad` is absent. -/
def sensitivity : FDict :=
  [("avg_dwell_time_ms", 2/10), ("std_dwell_time_ms", 1/10),
   ("avg_flight_time_ms", 2/10), ("std_flight_time_ms", 1/10),
   ("typing_speed_cps", 3/10), ("mouse_avg_speed_px_per_s", 2/10),
   ("mouse_total_clicks", 1/10), ("mouse_total_path_length", 1/10),
   ("mouse_avg_angle_change_rad", 1/10), ("mouse_total_movements", 1/10),
   ("session_duration_ms", 5/100)]

/-- `sensitivity.get(feature_name, 0.1)` (line 56). -/
def sensGet (f : String) : ℚ := dget sensitivity f (1/10)

/-- `sum(sensitivity.values())` (line 63). -/
def total_sensitivity : ℚ := (sensitivity.map Prod.snd).sum

/-- Per-feature relative deviation (lines 44-53): `0` if both profile and
current values are `0`, `1` if only the profile value is `0`, else
`abs(current - profile) / profile`. -/
def deviationOf (current_features user_profile : FDict) (f : String) : ℚ :=
  let current_val := dget current_features f 0
  let profile_val := dget user_profile f 0
  if profile_val = 0 ∧ current_val = 0 then 0
  else if profile_val = 0 then 1
  else pyabs (current_val - profile_val) / profile_val

/-- The `deviation_sum` accumulated by the loop over `FEATURE_ORDER`
(lines 43-58): each deviation is capped at `1.0` and weighted by
`sensitivity.get(feature_name, 0.1)`. -/
def deviation_sum (current_features user_profile : FDict) : ℚ :=
  FEATURE_ORDER.foldl
    (fun acc f => acc + pymin 1 (deviationOf current_features user_profile f) * sensGet f)
    0

/-- `calculate_rule_based_risk_score` (lines 18-72).  `feature_count` is the
length of `FEATURE_ORDER` (12, positive), so the `feature_count > 0` branch is
always taken.  `not any(user_profile.values())` checks that every value of the
profile dict is falsy, which for the numeric values modelled here means `0`. -/
def calculate_rule_based_risk_score (current_features user_profile : FDict) : ℚ :=
  let risk_score := pymin 1 (deviation_sum current_features user_profile / total_sensitivity)
  if user_profile.all (fun p => p.2 == 0) then pymax risk_score (2/10) else risk_score

/-- `get_risk_score` (lines 127-154): `0.5` when `current_features` is empty;
otherwise the rule-based score when the profile is truthy (a non-empty dict),
and the fixed `0.6` when it is `None` (or an empty dict). -/
def get_risk_score (current_features : FDict) (user_profile : Option FDict) : ℚ :=
  if current_features.isEmpty then 5/10
  else
    match user_profile with
    | some p => if p.isEmpty then 6/10 else calculate_rule_based_risk_score current_features p
    | none => 6/10

theorem total_sensitivity_eq : total_sensitivity = 31/20 := by
  norm_num [total_sensitivity, sensitivity]

theorem foldl_add_eq_sum (g : String → ℚ) (l : List String) (a : ℚ) :
    List.foldl (fun acc f => acc + g f) a l = a + (l.map g).sum := by
  induction l generalizing a with
  | nil => simp
  | cons b l ih => simp [List.foldl_cons, ih, add_assoc]

theorem deviation_sum_eq_sum (cur prof : FDict) :
    deviation_sum cur prof
      = (FEATURE_ORDER.map (fun f => pymin 1 (deviationOf cur prof f) * sensGet f)).sum := by
  rw [deviation_sum, foldl_add_eq_sum, zero_add]

/-- C2 counterexample: the sensitivity weights do not sum to less than 1
(the 11 tabulated weights sum to `1.55`), and at a concrete input where only
`mouse_std_angle_change_rad` deviates, the score is `deviation_sum / 1.55 =
0.1/1.55 = 2/31`, not `0.1` divided by the sum `1.65` of the 12 effective
per-metric weights (`2/33`). -/
theorem C2_counterexample :
    total_sensitivity = 31/20 ∧ ¬ total_sensitivity < 1 ∧
    calculate_rule_based_risk_score
        (FEATURE_ORDER.map (fun f => (f, if f = "mouse_std_angle_change_rad" then 2 else 1)))
        (FEATURE_ORDER.map (fun f => (f, 1)))
      = 2/31 ∧ (2/31 : ℚ) ≠ 2/33 := by
  refine ⟨total_sensitivity_eq, by rw [total_sensitivity_eq]; norm_num, ?_, by norm_num⟩
  simp +decide only [calculate_rule_based_risk_score, deviation_sum, deviationOf, sensGet,
    total_sensitivity, sensitivity, FEATURE_ORDER, dget_cons, dget_nil, List.map, List.foldl,
    List.all_cons, List.all_nil, List.map_cons, List.map_nil, List.sum_cons, List.sum_nil]
  norm_num [pymin, pymax, pyabs]

theorem sensGet_pos (f : String) : 0 < sensGet f := by
  rw [sensGet, dget]
  cases hf : sensitivity.find? (fun p => p.1 == f) with
  | none => norm_num
  | some p =>
      have hp : p ∈ sensitivity := List.mem_of_find?_eq_some hf
      simp only [sensitivity, List.mem_cons, List.not_mem_nil, or_false] at hp
      rcases hp with rfl | rfl | rfl | rfl | rfl | rfl | rfl | rfl | rfl | rfl | rfl <;> norm_num

theorem deviationOf_nonneg (cur prof : FDict) (f : String)
    (h : 0 ≤ dget prof f 0) : 0 ≤ deviationOf cur prof f := by
  rw [deviationOf]
  by_cases h1 : dget prof f 0 = 0 ∧ dget cur f 0 = 0
  · rw [if_pos h1]
  · rw [if_neg h1]
    by_cases h2 : dget prof f 0 = 0
    · rw [if_pos h2]; norm_num
    · rw [if_neg h2, pyabs_eq_abs]
      exact div_nonneg (abs_nonneg _) h

/-- C2 (amended): the rule-based score is the `FEATURE_ORDER`-indexed sum of
per-metric deviations, each capped at `1.0` and weighted by the sensitivity
table (with the `0.1` fallback weight where the table has no entry), divided
by the tabulated weight total `1.55 = 31/20`, capped at `1.0`, and floored at
`0.2` exactly when every profile value is zero; for profiles with nonnegative
values on the 12 metrics the result lies in `[0, 1]`; and when current equals
profile on all 12 metrics with nonzero profile values, the score is exactly
`0.0`. -/
theorem C2_rule_based_score (cur prof : FDict) :
    (calculate_rule_based_risk_score cur prof
      = (if prof.all (fun p => p.2 == 0)
         then max (min 1 ((FEATURE_ORDER.map
                (fun f => min 1 (deviationOf cur prof f) * sensGet f)).sum / (31/20))) (2/10)
         else min 1 ((FEATURE_ORDER.map
                (fun f => min 1 (deviationOf cur prof f) * sensGet f)).sum / (31/20)))) ∧
    ((∀ f ∈ FEATURE_ORDER, 0 ≤ dget prof f 0) →
      0 ≤ calculate_rule_based_risk_score cur prof ∧
      calculate_rule_based_risk_score cur prof ≤ 1) ∧
    ((∀ f ∈ FEATURE_ORDER, dget cur f 0 = dget prof f 0 ∧ dget prof f 0 ≠ 0) →
      calculate_rule_based_risk_score cur prof = 0) := by
  have hform : calculate_rule_based_risk_score cur prof
      = (if prof.all (fun p => p.2 == 0)
         then max (min 1 ((FEATURE_ORDER.map
                (fun f => min 1 (deviationOf cur prof f) * sensGet f)).sum / (31/20))) (2/10)
         else min 1 ((FEATURE_ORDER.map
                (fun f => min 1 (deviationOf cur prof f) * sensGet f)).sum / (31/20))) := by
    rw [calculate_rule_based_risk_score]
    simp only [deviation_sum_eq_sum, total_sensitivity_eq, pymin_eq_min, pymax_eq_max]
  refine ⟨hform, fun hnn => ?_, fun heq => ?_⟩
  · have hsum : 0 ≤ (FEATURE_ORDER.map
        (fun f => min 1 (deviationOf cur prof f) * sensGet f)).sum := by
      apply List.sum_nonneg
      intro x hx
      rw [List.mem_map] at hx
      obtain ⟨f, hf, rfl⟩ := hx
      have hd : 0 ≤ deviationOf cur prof f := deviationOf_nonneg cur prof f (hnn f hf)
      exact mul_nonneg (le_min (by norm_num) hd) (sensGet_pos f).le
    have hq : 0 ≤ (FEATURE_ORDER.map
        (fun f => min 1 (deviationOf cur prof f) * sensGet f)).sum / (31/20) :=
      div_nonneg hsum (by norm_num)
    rw [hform]
    by_cases hall : prof.all (fun p => p.2 == 0)
    · rw [if_pos hall]
      constructor
      · exact le_trans (by norm_num) (le_max_right _ _)
      · exact max_le (min_le_left _ _) (by norm_num)
    · rw [if_neg hall]
      exact ⟨le_min (by norm_num) hq, min_le_left _ _⟩
  · have hdev : ∀ f ∈ FEATURE_ORDER, deviationOf cur prof f = 0 := by
      intro f hf
      obtain ⟨hc, hp⟩ := heq f hf
      rw [deviationOf]
      simp only [hc]
      rw [if_neg (by exact fun h => hp h.1), if_neg hp]
      simp [pyabs]
    have hsum : (FEATURE_ORDER.map
        (fun f => min 1 (deviationOf cur prof f) * sensGet f)).sum = 0 := by
      apply List.sum_eq_zero
      intro x hx
      rw [List.mem_map] at hx
      obtain ⟨f, hf, rfl⟩ := hx
      rw [hdev f hf]
      norm_num
    have hall : prof.all (fun p => p.2 == 0) = false := by
      have h0 := (heq "avg_dwell_time_ms" (by simp [FEATURE_ORDER])).2
      exact all_falsy_eq_false_of_dget_ne prof "avg_dwell_time_ms" h0
    rw [hform, hall]
    simp only [Bool.false_eq_true, if_false, hsum]
    norm_num

/-- C2 witness: at a concrete all-ones current/profile pair the score formula
holds, the bounds hold, and the zero-deviation case gives exactly `0`. -/
theorem C2_rule_based_score_witness :
    (∀ f ∈ FEATURE_ORDER,
        dget (FEATURE_ORDER.map (fun f => (f, 1))) f 0
          = dget (FEATURE_ORDER.map (fun f => (f, 1))) f 0 ∧
        dget (FEATURE_ORDER.map (fun f => (f, 1))) f 0 ≠ 0) ∧
    calculate_rule_based_risk_score (FEATURE_ORDER.map (fun f => (f, 1)))
        (FEATURE_ORDER.map (fun f => (f, 1))) = 0 := by
  have h : ∀ f ∈ FEATURE_ORDER,
      dget (FEATURE_ORDER.map (fun f => (f, 1))) f 0
        = dget (FEATURE_ORDER.map (fun f => (f, 1))) f 0 ∧
      dget (FEATURE_ORDER.map (fun f => (f, 1))) f 0 ≠ 0 := by
    intro f hf
    refine ⟨rfl, ?_⟩
    simp only [FEATURE_ORDER, List.mem_cons, List.not_mem_nil, or_false] at hf
    rcases hf with rfl | rfl | rfl | rfl | rfl | rfl | rfl | rfl | rfl | rfl | rfl | rfl <;>
      simp +decide only [FEATURE_ORDER, List.map_cons, List.map_nil, dget_cons, dget_nil]
  exact ⟨h, (C2_rule_based_score _ _).2.2 h⟩

/-- C7: a profile whose values are all zero is floored at risk `0.2` whatever
the current features are; a missing profile (`None`) short-circuits to the
fixed `0.6` for any non-empty feature vector; and the two paths are
observably different (an all-zero profile scores `0.2`, not `0.6`, on
all-zero features). -/
theorem C7_zero_profile_vs_no_profile :
    (∀ cur prof : FDict, (∀ p ∈ prof, p.2 = 0) →
        2/10 ≤ calculate_rule_based_risk_score cur prof) ∧
    (∀ cur : FDict, cur ≠ [] → get_risk_score cur none = 6/10) ∧
    get_risk_score (FEATURE_ORDER.map (fun f => (f, 0)))
        (some (FEATURE_ORDER.map (fun f => (f, 0)))) = 2/10 ∧
    ((2:ℚ)/10 ≠ 6/10) := by
  refine ⟨fun cur prof hz => ?_, fun cur hne => ?_, ?_, by norm_num⟩
  · have hall : prof.all (fun p => p.2 == 0) = true := by
      rw [List.all_eq_true]
      intro p hp
      simpa using hz p hp
    rw [calculate_rule_based_risk_score]
    simp only [hall, if_true, pymax_eq_max]
    exact le_max_right _ _
  · rw [get_risk_score, if_neg (by simpa [List.isEmpty_iff] using hne)]
  · simp +decide only [get_risk_score, calculate_rule_based_risk_score, deviation_sum,
      deviationOf, sensGet, total_sensitivity, sensitivity, FEATURE_ORDER, dget_cons, dget_nil,
      List.map, List.foldl, List.all_cons, List.all_nil, List.map_cons, List.map_nil,
      List.isEmpty]
    norm_num [pymin, pymax, pyabs]

/-- C7 witness: the all-zero profile hypothesis discharged at a concrete
profile, and a concrete non-empty feature vector for the no-profile path. -/
theorem C7_zero_profile_vs_no_profile_witness :
    (∀ p ∈ ([("avg_dwell_time_ms", 0)] : FDict), p.2 = (0:ℚ)) ∧
    2/10 ≤ calculate_rule_based_risk_score [("typing_speed_cps", 1)]
        [("avg_dwell_time_ms", 0)] ∧
    ([("typing_speed_cps", 1)] : FDict) ≠ [] ∧
    get_risk_score [("typing_speed_cps", 1)] none = 6/10 := by
  have h1 : ∀ p ∈ ([("avg_dwell_time_ms", 0)] : FDict), p.2 = (0:ℚ) := by
    intro p hp
    simp only [List.mem_cons, List.not_mem_nil, or_false] at hp
    rw [hp]
  have h2 : ([("typing_speed_cps", 1)] : FDict) ≠ [] := by simp
  exact ⟨h1, (C7_zero_profile_vs_no_profile).1 _ _ h1, h2,
    (C7_zero_profile_vs_no_profile).2.1 _ h2⟩

/-! ## Profile updater (`backend/src/profiling/user_profiler.py`) -/

/-- `PROFILE_FEATURES` (user_profiler.py, lines 7-12). -/
def PROFILE_FEATURES : List String :=
  ["avg_dwell_time_ms", "std_dwell_time_ms", "avg_flight_time_ms",
   "std_flight_time_ms", "typing_speed_cps", "mouse_total_movements",
   "mouse_total_clicks", "mouse_total_path_length", "mouse_avg_speed_px_per_s",
   "mouse_avg_angle_change_rad", "mouse_std_angle_change_rad",
   "session_duration_ms"]

/-- The per-feature fields written by `update_user_profile` (user_profiler.py,
lines 40-56): with a truthy existing profile, each tracked metric becomes
`current_val * 0.9 + new_val * 0.1` with `dict.get(name, 0.0)` on both sides;
otherwise the tracked metrics are copied from `new_features` (missing
metrics default to `0.0`).  The `user_id` and `last_updated` bookkeeping
fields and the Mongo upsert are outside the numeric model. -/
def update_user_profile : Option FDict → FDict → FDict
  | some p, new_features =>
      if p.isEmpty then
        PROFILE_FEATURES.map (fun f => (f, dget new_features f 0))
      else
        PROFILE_FEATURES.map
          (fun f => (f, dget p f 0 * (9/10) + dget new_features f 0 * (1/10)))
  | none, new_features => PROFILE_FEATURES.map (fun f => (f, dget new_features f 0))

/-- `n` successive profile updates, each folding in the same observed
feature vector `new_features`, starting from stored profile `init`. -/
def iterate_profile (new_features : FDict) (init : Option FDict) : ℕ → Option FDict
  | 0 => init
  | n+1 => some (update_user_profile (iterate_profile new_features init n) new_features)

theorem dget_map_of_mem (l : List String) (g : String → ℚ) (f : String) (hf : f ∈ l) :
    dget (l.map (fun x => (x, g x))) f 0 = g f := by
  induction l with
  | nil => cases hf
  | cons a l ih =>
      rw [List.map_cons, dget_cons]
      by_cases h : a = f
      · subst h
        rw [if_pos (by simp)]
      · rw [if_neg (by simpa using h)]
        rcases List.mem_cons.mp hf with h' | h'
        · exact absurd h'.symm h
        · exact ih h'

theorem dget_eq_zero_of_not_dmem (d : FDict) (f : String) (h : dmem d f = false) :
    dget d f 0 = 0 := by
  rw [dget]
  rw [dmem] at h
  cases hf : d.find? (fun p => p.1 == f) with
  | none => rfl
  | some p => rw [hf] at h; simp at h

theorem profile_features_map_ne_nil (g : String → ℚ) :
    (PROFILE_FEATURES.map (fun f => (f, g f))).isEmpty = false := by
  simp [PROFILE_FEATURES]

theorem iterate_profile_const (b x : ℚ) (n : ℕ) :
    ∃ d : FDict, iterate_profile (PROFILE_FEATURES.map (fun f => (f, x)))
        (some (PROFILE_FEATURES.map (fun f => (f, b)))) n = some d ∧
      d.isEmpty = false ∧
      ∀ f ∈ PROFILE_FEATURES, dget d f 0 = x + (b - x) * (9/10)^n := by
  induction n with
  | zero =>
      refine ⟨PROFILE_FEATURES.map (fun f => (f, b)), rfl,
        profile_features_map_ne_nil _, fun f hf => ?_⟩
      rw [dget_map_of_mem _ _ _ hf]
      ring
  | succ n ih =>
      obtain ⟨d, hd, hne, hval⟩ := ih
      refine ⟨update_user_profile (some d)
          (PROFILE_FEATURES.map (fun f => (f, x))), ?_, ?_, ?_⟩
      · rw [iterate_profile, hd]
      · rw [update_user_profile, if_neg (by rw [hne]; exact Bool.false_ne_true)]
        exact profile_features_map_ne_nil _
      · intro f hf
        rw [update_user_profile, if_neg (by rw [hne]; exact Bool.false_ne_true),
          dget_map_of_mem _ _ _ hf, hval f hf, dget_map_of_mem _ _ _ hf]
        ring

/-- C5 counterexample: from baseline `b = 100` and observation `x = 150`, one
update yields `0.9·100 + 0.1·150 = 105`, not the `145.0` asserted by the
claim's example. -/
theorem C5_counterexample :
    dget ((iterate_profile (PROFILE_FEATURES.map (fun f => (f, 150)))
        (some (PROFILE_FEATURES.map (fun f => (f, 100)))) 1).getD [])
      "avg_dwell_time_ms" 0 = 105 ∧ (105 : ℚ) ≠ 145 := by
  constructor
  · simp +decide only [iterate_profile, update_user_profile, PROFILE_FEATURES,
      List.map_cons, List.map_nil, List.isEmpty_cons, dget_cons, dget_nil,
      Option.getD_some, Bool.false_eq_true, if_false]
    norm_num
  · norm_num

/-- C5 (amended): with a truthy stored profile every tracked metric is updated
to `0.9 × old + 0.1 × new`; with no stored profile the new profile copies the
observed features on the tracked metrics; hence after `n ≥ 1` identical
observations `x` from baseline `b`, a tracked metric holds exactly
`x + (b − x)·0.9ⁿ` (so `b = 100`, `x = 150` gives `105` after one update and
`109.5` after two — not `145.0`/`145.5`). -/
theorem C5_profile_ema :
    (∀ (new : FDict), ∀ f ∈ PROFILE_FEATURES,
        dget (update_user_profile none new) f 0 = dget new f 0) ∧
    (∀ (p new : FDict), p.isEmpty = false → ∀ f ∈ PROFILE_FEATURES,
        dget (update_user_profile (some p) new) f 0
          = dget p f 0 * (9/10) + dget new f 0 * (1/10)) ∧
    (∀ (b x : ℚ) (n : ℕ), 1 ≤ n → ∀ f ∈ PROFILE_FEATURES,
        dget ((iterate_profile (PROFILE_FEATURES.map (fun f => (f, x)))
            (some (PROFILE_FEATURES.map (fun f => (f, b)))) n).getD []) f 0
          = x + (b - x) * (9/10)^n) := by
  refine ⟨fun new f hf => ?_, fun p new hp f hf => ?_, fun b x n _ f hf => ?_⟩
  · rw [update_user_profile, dget_map_of_mem _ _ _ hf]
  · rw [update_user_profile, if_neg (by rw [hp]; exact Bool.false_ne_true),
      dget_map_of_mem _ _ _ hf]
  · obtain ⟨d, hd, _, hval⟩ := iterate_profile_const b x n
    rw [hd, Option.getD_some]
    exact hval f hf

/-- C5 witness: the EMA law instantiated at `b = 100`, `x = 150`, `n = 2`,
on `avg_dwell_time_ms`: the profile value is `150 + (100 − 150)·0.81 = 109.5`. -/
theorem C5_profile_ema_witness :
    1 ≤ 2 ∧ "avg_dwell_time_ms" ∈ PROFILE_FEATURES ∧
    dget ((iterate_profile (PROFILE_FEATURES.map (fun f => (f, 150)))
        (some (PROFILE_FEATURES.map (fun f => (f, 100)))) 2).getD [])
      "avg_dwell_time_ms" 0 = 150 + (100 - 150) * (9/10)^2 := by
  refine ⟨by norm_num, by simp [PROFILE_FEATURES], ?_⟩
  exact C5_profile_ema.2.2 100 150 2 (by norm_num) "avg_dwell_time_ms"
    (by simp [PROFILE_FEATURES])

/-- C10: the profile update is total on partial feature vectors: a tracked
metric absent from the new features is treated as an observation of `0.0`, so
an existing profile value decays to `0.9 ×` itself; a tracked metric absent
from the stored (truthy) profile is treated as baseline `0.0`, so the updated
value is `0.1 ×` the observed value. -/
theorem C10_partial_feature_vector (prof new : FDict) (f : String)
    (hf : f ∈ PROFILE_FEATURES) (hp : prof.isEmpty = false) :
    (dmem new f = false →
        dget (update_user_profile (some prof) new) f 0 = dget prof f 0 * (9/10)) ∧
    (dmem prof f = false →
        dget (update_user_profile (some prof) new) f 0 = dget new f 0 * (1/10)) := by
  have hstep : dget (update_user_profile (some prof) new) f 0
      = dget prof f 0 * (9/10) + dget new f 0 * (1/10) := by
    rw [update_user_profile, if_neg (by rw [hp]; exact Bool.false_ne_true),
      dget_map_of_mem _ _ _ hf]
  constructor
  · intro habs
    rw [hstep, dget_eq_zero_of_not_dmem new f habs]
    ring
  · intro habs
    rw [hstep, dget_eq_zero_of_not_dmem prof f habs]
    ring

/-- C10 witness: a profile holding only `avg_dwell_time_ms = 100` updated with
features holding only `typing_speed_cps = 5`: the dwell metric (absent from
the new features) becomes `90`, and the typing metric (absent from the
profile) becomes `0.5`. -/
theorem C10_partial_feature_vector_witness :
    "avg_dwell_time_ms" ∈ PROFILE_FEATURES ∧
    ([("avg_dwell_time_ms", 100)] : FDict).isEmpty = false ∧
    dmem [("typing_speed_cps", 5)] "avg_dwell_time_ms" = false ∧
    dget (update_user_profile (some [("avg_dwell_time_ms", 100)])
        [("typing_speed_cps", 5)]) "avg_dwell_time_ms" 0
      = dget [("avg_dwell_time_ms", 100)] "avg_dwell_time_ms" 0 * (9/10) ∧
    dmem [("avg_dwell_time_ms", 100)] "typing_speed_cps" = false ∧
    dget (update_user_profile (some [("avg_dwell_time_ms", 100)])
        [("typing_speed_cps", 5)]) "typing_speed_cps" 0
      = dget [("typing_speed_cps", 5)] "typing_speed_cps" 0 * (1/10) := by
  have hf1 : "avg_dwell_time_ms" ∈ PROFILE_FEATURES := by simp [PROFILE_FEATURES]
  have hf2 : "typing_speed_cps" ∈ PROFILE_FEATURES := by simp [PROFILE_FEATURES]
  have hp : ([("avg_dwell_time_ms", 100)] : FDict).isEmpty = false := rfl
  have h1 : dmem [("typing_speed_cps", 5)] "avg_dwell_time_ms" = false := rfl
  have h2 : dmem [("avg_dwell_time_ms", 100)] "typing_speed_cps" = false := rfl
  exact ⟨hf1, hp, h1,
    (C10_partial_feature_vector [("avg_dwell_time_ms", 100)]
      [("typing_speed_cps", 5)] "avg_dwell_time_ms" hf1 hp).1 h1, h2,
    (C10_partial_feature_vector [("avg_dwell_time_ms", 100)]
      [("typing_speed_cps", 5)] "typing_speed_cps" hf2 hp).2 h2⟩

/-! ## Feature normalizer (`backend/src/data_processing/feature_extractor.py`,
lines 139-176) -/

/-- A calibration table: feature name to `min`/`max` bounds. -/
abbrev MinMaxTable := List (String × (ℚ × ℚ))

/-- The built-in calibration table used when `min_max_values is None`
(feature_extractor.py, lines 147-161). -/
def default_min_max_values : MinMaxTable :=
  [("avg_dwell_time_ms", (50, 500)), ("std_dwell_time_ms", (0, 200)),
   ("avg_flight_time_ms", (50, 1000)), ("std_flight_time_ms", (0, 300)),
   ("typing_speed_cps", (0, 10)), ("mouse_total_movements", (0, 1000)),
   ("mouse_total_clicks", (0, 50)), ("mouse_total_path_length", (0, 50000)),
   ("mouse_avg_speed_px_per_s", (0, 1000)),
   ("mouse_avg_angle_change_rad", (0, 314/100)),
   ("mouse_std_angle_change_rad", (0, 1)), ("session_duration_ms", (0, 600000))]

/-- `key in min_max_values` lookup. -/
def mmFind (mm : MinMaxTable) (k : String) : Option (ℚ × ℚ) :=
  match mm.find? (fun p => p.1 == k) with
  | some p => some p.2
  | none => none

/-- One entry of `normalize_features` (lines 164-174): features with
calibration bounds are min-max scaled and clamped into `[0, 1]` when
`max_val - min_val > 0`, sent to `0.5` otherwise; features without bounds
pass through unchanged. -/
def normalize_entry (mm : MinMaxTable) (k : String) (v : ℚ) : ℚ :=
  match mmFind mm k with
  | some (mn, mx) =>
      if mx - mn > 0 then pymax 0 (pymin 1 ((v - mn) / (mx - mn))) else 1/2
  | none => v

/-- `normalize_features` (lines 139-176): the output dict has the same keys in
the same order, each value normalized by `normalize_entry`. -/
def normalize_features (features : FDict) (mm : MinMaxTable) : FDict :=
  features.map (fun p => (p.1, normalize_entry mm p.1 p.2))

theorem normalize_entry_some (mm : MinMaxTable) (k : String) (mn mx v : ℚ)
    (h : mmFind mm k = some (mn, mx)) :
    normalize_entry mm k v
      = if mx - mn > 0 then pymax 0 (pymin 1 ((v - mn) / (mx - mn))) else 1/2 := by
  rw [normalize_entry, h]

theorem normalize_entry_none (mm : MinMaxTable) (k : String) (v : ℚ)
    (h : mmFind mm k = none) : normalize_entry mm k v = v := by
  rw [normalize_entry, h]

theorem dget_normalize_features (feats : FDict) (mm : MinMaxTable) (k : String)
    (h : dmem feats k = true) :
    dget (normalize_features feats mm) k 0 = normalize_entry mm k (dget feats k 0) := by
  induction feats with
  | nil => simp [dmem, List.find?] at h
  | cons p rest ih =>
      rw [dmem_cons] at h
      rw [normalize_features, List.map_cons, dget_cons, dget_cons]
      by_cases hp : p.1 == k
      · have hpk : p.1 = k := by simpa using hp
        rw [if_pos hp, if_pos hp]
        simp [hpk]
      · rw [if_neg hp, if_neg hp]
        simp only [hp, Bool.false_or] at h
        exact ih h

/-- C9 counterexample: for the calibration entry `min = 1, max = 0` (so
`max ≠ min`) and value `0`, the code outputs the midpoint `0.5` because its
guard is `max − min > 0`, while the claimed clamp formula would give
`clamp((0 − 1)/(0 − 1), 0, 1) = 1`. -/
theorem C9_counterexample :
    dget (normalize_features [("f", 0)] [("f", (1, 0))]) "f" 0 = 1/2 ∧
    pymax 0 (pymin 1 (((0:ℚ) - 1) / (0 - 1))) = 1 ∧ ((1:ℚ)/2) ≠ 1 := by
  refine ⟨?_, ?_, by norm_num⟩
  · simp +decide only [normalize_features, normalize_entry, mmFind, List.map_cons,
      List.map_nil, dget_cons, dget_nil, List.find?]
    norm_num
  · norm_num [pymax, pymin]

/-- C9 (amended): for every feature vector and calibration table, a feature
with bounds `mn < mx` is mapped to `clamp((value − mn)/(mx − mn), 0, 1)` (so
the `mn` bound maps to exactly `0` and the `mx` bound to exactly `1`); a
feature with bounds `mx ≤ mn` (in particular `mx = mn`) is mapped to `0.5`;
features absent from the table pass through unchanged. -/
theorem C9_normalize_features (feats : FDict) (mm : MinMaxTable) (k : String)
    (mn mx : ℚ) (hk : dmem feats k = true) :
    (mmFind mm k = some (mn, mx) → mn < mx →
        dget (normalize_features feats mm) k 0
          = max 0 (min 1 ((dget feats k 0 - mn) / (mx - mn))) ∧
        (dget feats k 0 = mn → dget (normalize_features feats mm) k 0 = 0) ∧
        (dget feats k 0 = mx → dget (normalize_features feats mm) k 0 = 1)) ∧
    (mmFind mm k = some (mn, mx) → mx ≤ mn →
        dget (normalize_features feats mm) k 0 = 1/2) ∧
    (mmFind mm k = none →
        dget (normalize_features feats mm) k 0 = dget feats k 0) := by
  rw [dget_normalize_features feats mm k hk]
  refine ⟨fun hmm hlt => ?_, fun hmm hle => ?_, fun hmm => ?_⟩
  · have hpos : mx - mn > 0 := by linarith
    rw [normalize_entry_some mm k mn mx _ hmm, if_pos hpos, pymax_eq_max, pymin_eq_min]
    refine ⟨rfl, fun hv => ?_, fun hv => ?_⟩
    · rw [hv]
      norm_num
    · rw [hv, div_self (by linarith)]
      norm_num
  · rw [normalize_entry_some mm k mn mx _ hmm, if_neg (not_lt.mpr (by linarith))]
  · rw [normalize_entry_none mm k _ hmm]

/-- C9 witness: with the built-in table, `avg_dwell_time_ms` at its `min`
bound `50` normalizes to exactly `0`. -/
theorem C9_normalize_features_witness :
    dmem [("avg_dwell_time_ms", 50)] "avg_dwell_time_ms" = true ∧
    mmFind default_min_max_values "avg_dwell_time_ms" = some (50, 500) ∧
    (50:ℚ) < 500 ∧
    dget [("avg_dwell_time_ms", 50)] "avg_dwell_time_ms" 0 = 50 ∧
    dget (normalize_features [("avg_dwell_time_ms", 50)] default_min_max_values)
      "avg_dwell_time_ms" 0 = 0 := by
  have hm : dmem [("avg_dwell_time_ms", 50)] "avg_dwell_time_ms" = true := rfl
  have hmm : mmFind default_min_max_values "avg_dwell_time_ms" = some (50, 500) := rfl
  have hv : dget [("avg_dwell_time_ms", 50)] "avg_dwell_time_ms" 0 = 50 := rfl
  exact ⟨hm, hmm, by norm_num, hv,
    ((C9_normalize_features [("avg_dwell_time_ms", 50)] default_min_max_values
      "avg_dwell_time_ms" 50 500 hm).1 hmm (by norm_num)).2.1 hv⟩

/-! ## Feature extractor (`backend/src/data_processing/feature_extractor.py`,
lines 20-137)

Events are the rows of the DataFrame built from the decoded JSON batch:
a `type` tag, a millisecond `timestamp`, a `keyCode` (key events), and
optional `x`/`y` coordinates (pointer events; `dropna` skips rows where
either is missing).  `np.sqrt` (inside `np.std` and the path-length
computation) and `np.arctan2` are transcendental, so the extractor takes
them as parameters `sqrtF`/`atan2F`; no claim proved below depends on a
value produced by them. -/

/-- The `type` tag of a raw behavioral event. -/
inductive EventType where
  | keydown
  | keyup
  | mousemove
  | click
deriving DecidableEq, Repr

instance : BEq EventType := instBEqOfDecidableEq

/-- One decoded behavioral event (a row of the DataFrame). -/
structure RawEvent where
  type : EventType
  timestamp : ℚ
  keyCode : ℤ := 0
  x : Option ℚ := none
  y : Option ℚ := none
deriving DecidableEq

/-- Lookup in the `key_down_times` dict (keyed by key code). -/
def kdFind (d : List (ℤ × ℚ)) (k : ℤ) : Option ℚ :=
  (d.find? (fun p => p.1 == k)).map Prod.snd

/-- `key_down_times[kc] = ts`. -/
def kdInsert (d : List (ℤ × ℚ)) (k : ℤ) (v : ℚ) : List (ℤ × ℚ) :=
  match d with
  | [] => [(k, v)]
  | p :: rest => if p.1 == k then (k, v) :: rest else p :: kdInsert rest k v

/-- `del key_down_times[kc]`. -/
def kdErase (d : List (ℤ × ℚ)) (k : ℤ) : List (ℤ × ℚ) :=
  match d with
  | [] => []
  | p :: rest => if p.1 == k then rest else p :: kdErase rest k

/-- State of the keystroke-analysis loop (feature_extractor.py, lines 37-51):
the open `key_down_times` dict, the accumulated flight/dwell time lists, and
the previous key-up timestamp. -/
structure KeyState where
  key_down_times : List (ℤ × ℚ)
  flight_times : List ℚ
  dwell_times : List ℚ
  prev_key_up : Option ℚ
deriving DecidableEq

/-- One iteration of the keystroke loop (lines 42-51).  The loop walks the
DataFrame rows in their **input order** — no sort is applied to `df` before
it.  A `keydown` stores its timestamp under its key code (recording a flight
time from the previous key-up, when one exists); a `keyup` with a matching
open `keydown` records a dwell time, becomes the previous key-up, and closes
the entry; all other rows are skipped. -/
def keyStep (st : KeyState) (e : RawEvent) : KeyState :=
  match e.type with
  | EventType.keydown =>
      let st1 := { st with key_down_times := kdInsert st.key_down_times e.keyCode e.timestamp }
      match st.prev_key_up with
      | some t => { st1 with flight_times := st1.flight_times ++ [e.timestamp - t] }
      | none => st1
  | EventType.keyup =>
      match kdFind st.key_down_times e.keyCode with
      | some tdown =>
          { st with
            dwell_times := st.dwell_times ++ [e.timestamp - tdown],
            prev_key_up := some e.timestamp,
            key_down_times := kdErase st.key_down_times e.keyCode }
      | none => st
  | _ => st

/-- The whole keystroke loop over the input batch, in input order. -/
def keyLoop (events : List RawEvent) : KeyState :=
  events.foldl keyStep ⟨[], [], [], none⟩

/-- `np.mean`. -/
def npMean (l : List ℚ) : ℚ := l.sum / l.length

/-- `np.std` (population): the square root of the mean squared deviation,
with the square root supplied as a parameter. -/
def npStd (sqrtF : ℚ → ℚ) (l : List ℚ) : ℚ :=
  sqrtF ((l.map (fun x => (x - npMean l)^2)).sum / l.length)

/-- `series.max()` as an `Option` (`none` on an empty series), folded with a
left-commutative step so permutation invariance is immediate. -/
def tsMaxAux (l : List ℚ) : Option ℚ :=
  l.foldr (fun a m => some (match m with | none => a | some b => max a b)) none

/-- `series.min()` as an `Option`. -/
def tsMinAux (l : List ℚ) : Option ℚ :=
  l.foldr (fun a m => some (match m with | none => a | some b => min a b)) none

/-- `series.max()`, `0` on an empty series (the extractor only reads it on
non-empty input). -/
def tsMax (l : List ℚ) : ℚ := (tsMaxAux l).getD 0

/-- `series.min()`. -/
def tsMin (l : List ℚ) : ℚ := (tsMinAux l).getD 0

/-- `df['type'].isin(['keydown', 'keyup'])`. -/
def isKeyEvent (e : RawEvent) : Bool :=
  e.type == EventType.keydown || e.type == EventType.keyup

/-- `df['type'].isin(['mousemove', 'click'])`. -/
def isMouseEvent (e : RawEvent) : Bool :=
  e.type == EventType.mousemove || e.type == EventType.click

/-- `mouse_events = df[...].sort_values('timestamp')` (lines 75-77): only the
mouse events are sorted by timestamp; the rest of the frame never is.
(`sort_values` uses an unstable quicksort, so the order among equal
timestamps is unspecified; an insertion sort by timestamp is one admissible
ordering.) -/
def sortedMouseEvents (events : List RawEvent) : List RawEvent :=
  (events.filter isMouseEvent).insertionSort (fun a b => a.timestamp ≤ b.timestamp)

/-- `mouse_events[['x','y']].dropna().values`: the coordinate pairs of the
sorted mouse events where both coordinates are present. -/
def coordsOf (events : List RawEvent) : List (ℚ × ℚ) :=
  events.filterMap (fun e =>
    match e.x, e.y with
    | some x, some y => some (x, y)
    | _, _ => none)

/-- Consecutive pairs of a list (`np.diff` pairs). -/
def consecutivePairs {α : Type} (l : List α) : List (α × α) := l.zip l.tail

/-- `np.sqrt(np.sum(np.diff(coords, axis=0)**2, axis=1))`: Euclidean segment
lengths between consecutive coordinate samples. -/
def pathLengths (sqrtF : ℚ → ℚ) (coords : List (ℚ × ℚ)) : List ℚ :=
  (consecutivePairs coords).map
    (fun pq => sqrtF ((pq.2.1 - pq.1.1)^2 + (pq.2.2 - pq.1.2)^2))

/-- The IEEE-754 double closest to π: the exact rational value of `np.pi`. -/
def np_pi : ℚ := 884279719003555 / 281474976710656

/-- `np.arctan2(diffs[:, 1], diffs[:, 0])`: the heading of each segment. -/
def segmentAngles (atan2F : ℚ → ℚ → ℚ) (coords : List (ℚ × ℚ)) : List ℚ :=
  (consecutivePairs coords).map
    (fun pq => atan2F (pq.2.2 - pq.1.2) (pq.2.1 - pq.1.1))

/-- `np.minimum(np.abs(np.diff(angles)), 2π − np.abs(np.diff(angles)))`
(lines 101-103): absolute heading differences folded into `[0, π]`. -/
def angleChanges (atan2F : ℚ → ℚ → ℚ) (coords : List (ℚ × ℚ)) : List ℚ :=
  ((consecutivePairs (segmentAngles atan2F coords)).map
      (fun ab => pyabs (ab.2 - ab.1))).map
    (fun d => pymin d (2 * np_pi - d))

/-- `all_possible_features` (feature_extractor.py, lines 127-132). -/
def all_possible_features : List String :=
  ["avg_dwell_time_ms", "std_dwell_time_ms", "avg_flight_time_ms",
   "std_flight_time_ms", "typing_speed_cps", "mouse_total_movements",
   "mouse_total_clicks", "mouse_total_path_length", "mouse_avg_speed_px_per_s",
   "mouse_avg_angle_change_rad", "mouse_std_angle_change_rad",
   "session_duration_ms"]

/-- The fill loop (lines 133-135): any name of `all_possible_features` not
yet in the features dict is set to `0.0`. -/
def fillDefaults : FDict → List String → FDict
  | d, [] => d
  | d, n :: rest => fillDefaults (if dmem d n then d else dinsert d n 0) rest

/-- `typing_speed_cps` (lines 67-72): half the count of key events divided by
the elapsed session time in seconds, `0` when no time elapsed. -/
def typing_speed_feature (events : List RawEvent) : ℚ :=
  let ts := events.map RawEvent.timestamp
  let total_time_typing := (tsMax ts - tsMin ts) / 1000
  if total_time_typing > 0 then ((events.countP isKeyEvent : ℚ) / 2) / total_time_typing
  else 0

/-- `session_duration_ms` (lines 119-122): max minus min timestamp, `0` for
fewer than 2 events. -/
def session_duration_feature (events : List RawEvent) : ℚ :=
  if events.length > 1 then
    tsMax (events.map RawEvent.timestamp) - tsMin (events.map RawEvent.timestamp)
  else 0

/-- `mouse_total_movements` (line 78), as a count over the sorted mouse rows. -/
def mouse_movements_feature (events : List RawEvent) : ℚ :=
  ((sortedMouseEvents events).countP (fun e => e.type == EventType.mousemove) : ℚ)

/-- `mouse_total_clicks` (line 79). -/
def mouse_clicks_feature (events : List RawEvent) : ℚ :=
  ((sortedMouseEvents events).countP (fun e => e.type == EventType.click) : ℚ)

/-- `extract_web_features` (lines 20-137), building the features dict in the
source's insertion order.  The keystroke loop consumes the events in input
order; only the mouse events pass through a timestamp sort. -/
def extract_web_features (sqrtF : ℚ → ℚ) (atan2F : ℚ → ℚ → ℚ)
    (events : List RawEvent) : FDict :=
  if events.isEmpty then []
  else
    let st := keyLoop events
    let features : FDict := []
    let features :=
      if st.dwell_times.isEmpty then
        dinsert (dinsert features "avg_dwell_time_ms" 0) "std_dwell_time_ms" 0
      else
        dinsert (dinsert features "avg_dwell_time_ms" (npMean st.dwell_times))
          "std_dwell_time_ms" (npStd sqrtF st.dwell_times)
    let features :=
      if st.flight_times.isEmpty then
        dinsert (dinsert features "avg_flight_time_ms" 0) "std_flight_time_ms" 0
      else
        dinsert (dinsert features "avg_flight_time_ms" (npMean st.flight_times))
          "std_flight_time_ms" (npStd sqrtF st.flight_times)
    let features := dinsert features "typing_speed_cps" (typing_speed_feature events)
    let mouse_events := sortedMouseEvents events
    let features :=
      if mouse_events.isEmpty then
        dinsert (dinsert (dinsert (dinsert (dinsert (dinsert features
          "mouse_total_movements" 0) "mouse_total_clicks" 0)
          "mouse_total_path_length" 0) "mouse_avg_speed_px_per_s" 0)
          "mouse_avg_angle_change_rad" 0) "mouse_std_angle_change_rad" 0
      else
        let features := dinsert features "mouse_total_movements"
          (mouse_movements_feature events)
        let features := dinsert features "mouse_total_clicks"
          (mouse_clicks_feature events)
        let coords := coordsOf mouse_events
        let features :=
          if coords.length > 1 then
            let total_path_length := (pathLengths sqrtF coords).sum
            let mouse_ts := mouse_events.map RawEvent.timestamp
            let total_mouse_time := (tsMax mouse_ts - tsMin mouse_ts) / 1000
            let features := dinsert features "mouse_total_path_length" total_path_length
            if total_mouse_time > 0 then
              dinsert features "mouse_avg_speed_px_per_s"
                (total_path_length / total_mouse_time)
            else dinsert features "mouse_avg_speed_px_per_s" 0
          else
            dinsert (dinsert features "mouse_total_path_length" 0)
              "mouse_avg_speed_px_per_s" 0
        if coords.length > 2 then
          dinsert (dinsert features "mouse_avg_angle_change_rad"
              (npMean (angleChanges atan2F coords)))
            "mouse_std_angle_change_rad" (npStd sqrtF (angleChanges atan2F coords))
        else
          dinsert (dinsert features "mouse_avg_angle_change_rad" 0)
            "mouse_std_angle_change_rad" 0
    let features := dinsert features "session_duration_ms"
      (session_duration_feature events)
    fillDefaults features all_possible_features

theorem dmem_fillDefaults_preserve (names : List String) (d : FDict) (n : String)
    (h : dmem d n = true) : dmem (fillDefaults d names) n = true := by
  induction names generalizing d with
  | nil => exact h
  | cons a rest ih =>
      rw [fillDefaults]
      apply ih
      by_cases ha : dmem d a
      · rw [if_pos ha]; exact h
      · rw [if_neg ha, dmem_dinsert, h, Bool.true_or]

theorem dmem_fillDefaults_of_mem (names : List String) (d : FDict) (n : String)
    (h : n ∈ names) : dmem (fillDefaults d names) n = true := by
  induction names generalizing d with
  | nil => cases h
  | cons a rest ih =>
      rw [fillDefaults]
      rcases List.mem_cons.mp h with rfl | h'
      · apply dmem_fillDefaults_preserve
        by_cases ha : dmem d n
        · rw [if_pos ha]; exact ha
        · rw [if_neg ha, dmem_dinsert]
          simp
      · exact ih _ h'

/-- C1 (amended): for every non-empty input event sequence, the raw feature
vector contains every one of the **12** web metric names
(`all_possible_features`) as a key — the fill loop guarantees presence with a
`0.0` default — so callers never need to check those keys for absence; the 8
mobile metric names (`avg_swipe_speed`, `max_swipe_speed`,
`gyroX/Y/Z_stddev`, `accelX/Y/Z_mean`) are never produced. -/
theorem C1_feature_keys (sqrtF : ℚ → ℚ) (atan2F : ℚ → ℚ → ℚ)
    (events : List RawEvent) (hne : events ≠ []) :
    ∀ n ∈ all_possible_features,
      dmem (extract_web_features sqrtF atan2F events) n = true := by
  intro n hn
  rw [extract_web_features, if_neg (by simpa [List.isEmpty_iff] using hne)]
  exact dmem_fillDefaults_of_mem _ _ _ hn

/-- C1 witness: on a one-keydown batch, `avg_dwell_time_ms` is present. -/
theorem C1_feature_keys_witness :
    ([({ type := EventType.keydown, timestamp := 0, keyCode := 65 } : RawEvent)] ≠
        ([] : List RawEvent)) ∧
    "avg_dwell_time_ms" ∈ all_possible_features ∧
    dmem (extract_web_features (fun _ => 0) (fun _ _ => 0)
        [{ type := EventType.keydown, timestamp := 0, keyCode := 65 }])
      "avg_dwell_time_ms" = true := by
  refine ⟨by simp, by simp [all_possible_features], ?_⟩
  exact C1_feature_keys (fun _ => 0) (fun _ _ => 0)
    [{ type := EventType.keydown, timestamp := 0, keyCode := 65 }] (by simp)
    "avg_dwell_time_ms" (by simp [all_possible_features])

/-- C1 counterexample: the closed key set has 12 names, not 20 — on a
non-empty batch the extractor's output has no `avg_swipe_speed` key (nor any
other mobile metric). -/
theorem C1_counterexample :
    dmem (extract_web_features (fun _ => 0) (fun _ _ => 0)
        [{ type := EventType.keydown, timestamp := 0, keyCode := 65 }])
      "avg_swipe_speed" = false ∧
    dmem (extract_web_features (fun _ => 0) (fun _ _ => 0)
        [{ type := EventType.keydown, timestamp := 0, keyCode := 65 }])
      "gyroX_stddev" = false := by
  constructor <;> rfl

theorem tsMaxAux_cons (a : ℚ) (l : List ℚ) :
    tsMaxAux (a :: l)
      = some (match tsMaxAux l with | none => a | some b => max a b) := rfl

theorem tsMinAux_cons (a : ℚ) (l : List ℚ) :
    tsMinAux (a :: l)
      = some (match tsMinAux l with | none => a | some b => min a b) := rfl

theorem tsMaxAux_perm {l l' : List ℚ} (h : l.Perm l') : tsMaxAux l = tsMaxAux l' := by
  induction h with
  | nil => rfl
  | cons x _ ih => rw [tsMaxAux_cons, tsMaxAux_cons, ih]
  | swap x y l =>
      rw [tsMaxAux_cons, tsMaxAux_cons, tsMaxAux_cons, tsMaxAux_cons]
      rcases tsMaxAux l with _ | c
      · simp [max_comm]
      · simp [max_left_comm]
  | trans _ _ ih1 ih2 => rw [ih1, ih2]

theorem tsMinAux_perm {l l' : List ℚ} (h : l.Perm l') : tsMinAux l = tsMinAux l' := by
  induction h with
  | nil => rfl
  | cons x _ ih => rw [tsMinAux_cons, tsMinAux_cons, ih]
  | swap x y l =>
      rw [tsMinAux_cons, tsMinAux_cons, tsMinAux_cons, tsMinAux_cons]
      rcases tsMinAux l with _ | c
      · simp [min_comm]
      · simp [min_left_comm]
  | trans _ _ ih1 ih2 => rw [ih1, ih2]

theorem sortedMouseEvents_perm {l l' : List RawEvent} (h : l.Perm l') :
    (sortedMouseEvents l).Perm (sortedMouseEvents l') := by
  rw [sortedMouseEvents, sortedMouseEvents]
  exact ((List.perm_insertionSort _ _).trans (h.filter isMouseEvent)).trans
    (List.perm_insertionSort _ _).symm

/-- A key-down at `t = 0` (key code 65). -/
def evKeyDownA : RawEvent := { type := EventType.keydown, timestamp := 0, keyCode := 65 }

/-- A key-up at `t = 100` (key code 65). -/
def evKeyUpA : RawEvent := { type := EventType.keyup, timestamp := 100, keyCode := 65 }

/-- A key-down at `t = 0` (key code 66). -/
def evKeyDownB : RawEvent := { type := EventType.keydown, timestamp := 0, keyCode := 66 }

/-- A key-up at `t = 50` (key code 66). -/
def evKeyUpB : RawEvent := { type := EventType.keyup, timestamp := 50, keyCode := 66 }

/-- C6 counterexample: the keystroke walk is **not** preceded by a timestamp
sort.  The batch `[key_up@100, key_down@0]` is a permutation of the sorted
`[key_down@0, key_up@100]`, yet extraction yields `avg_dwell_time_ms = 0` on
the former (the leading key-up finds no open key-down) and `100` on the
latter, so the extracted vector differs from the one of the timestamp-sorted
sequence. -/
theorem C6_counterexample :
    ([evKeyUpA, evKeyDownA] : List RawEvent).Perm [evKeyDownA, evKeyUpA] ∧
    List.Sorted (fun a b : RawEvent => a.timestamp ≤ b.timestamp)
      [evKeyDownA, evKeyUpA] ∧
    dget (extract_web_features (fun _ => 0) (fun _ _ => 0) [evKeyUpA, evKeyDownA])
      "avg_dwell_time_ms" 0 = 0 ∧
    dget (extract_web_features (fun _ => 0) (fun _ _ => 0) [evKeyDownA, evKeyUpA])
      "avg_dwell_time_ms" 0 = 100 ∧
    (0 : ℚ) ≠ 100 := by
  refine ⟨List.Perm.swap evKeyDownA evKeyUpA [], ?_, rfl, ?_, by norm_num⟩
  · norm_num [List.sorted_cons, evKeyDownA, evKeyUpA]
  · have h : dget (extract_web_features (fun _ => 0) (fun _ _ => 0)
        [evKeyDownA, evKeyUpA]) "avg_dwell_time_ms" 0 = npMean [(100:ℚ) - 0] := rfl
    rw [h]
    norm_num [npMean]

/-- C6 (amended): the extractor sorts only the pointer events by timestamp
before computing pointer deltas; the multiset-determined metrics
(`typing_speed_cps`, `session_duration_ms`, `mouse_total_movements`,
`mouse_total_clicks`) are invariant under any permutation of the input batch,
but the keystroke metrics are computed in input-batch order, so the extracted
feature vector need not equal the one of the timestamp-sorted sequence (a
transposed key-down/key-up pair changes `avg_dwell_time_ms`). -/
theorem C6_extraction_order :
    (∀ (l l' : List RawEvent), l.Perm l' →
        typing_speed_feature l = typing_speed_feature l') ∧
    (∀ (l l' : List RawEvent), l.Perm l' →
        session_duration_feature l = session_duration_feature l') ∧
    (∀ (l l' : List RawEvent), l.Perm l' →
        mouse_movements_feature l = mouse_movements_feature l') ∧
    (∀ (l l' : List RawEvent), l.Perm l' →
        mouse_clicks_feature l = mouse_clicks_feature l') ∧
    dget (extract_web_features (fun _ => 0) (fun _ _ => 0) [evKeyUpB, evKeyDownB])
        "avg_dwell_time_ms" 0
      ≠ dget (extract_web_features (fun _ => 0) (fun _ _ => 0) [evKeyDownB, evKeyUpB])
        "avg_dwell_time_ms" 0 := by
  refine ⟨fun l l' h => ?_, fun l l' h => ?_, fun l l' h => ?_, fun l l' h => ?_, ?_⟩
  · simp only [typing_speed_feature, tsMax, tsMin,
      tsMaxAux_perm (h.map RawEvent.timestamp), tsMinAux_perm (h.map RawEvent.timestamp),
      h.countP_eq isKeyEvent]
  · simp only [session_duration_feature, h.length_eq, tsMax, tsMin,
      tsMaxAux_perm (h.map RawEvent.timestamp), tsMinAux_perm (h.map RawEvent.timestamp)]
  · rw [mouse_movements_feature, mouse_movements_feature,
      (sortedMouseEvents_perm h).countP_eq]
  · rw [mouse_clicks_feature, mouse_clicks_feature,
      (sortedMouseEvents_perm h).countP_eq]
  · have h1 : dget (extract_web_features (fun _ => 0) (fun _ _ => 0)
        [evKeyUpB, evKeyDownB]) "avg_dwell_time_ms" 0 = 0 := rfl
    have h2 : dget (extract_web_features (fun _ => 0) (fun _ _ => 0)
        [evKeyDownB, evKeyUpB]) "avg_dwell_time_ms" 0 = npMean [(50:ℚ) - 0] := rfl
    rw [h1, h2]
    norm_num [npMean]

/-- C6 witness: the permutation-invariance parts instantiated on a concrete
two-event swap. -/
theorem C6_extraction_order_witness :
    ([evKeyUpA, evKeyDownA] : List RawEvent).Perm [evKeyDownA, evKeyUpA] ∧
    typing_speed_feature [evKeyUpA, evKeyDownA]
      = typing_speed_feature [evKeyDownA, evKeyUpA] ∧
    session_duration_feature [evKeyUpA, evKeyDownA]
      = session_duration_feature [evKeyDownA, evKeyUpA] := by
  have hp : ([evKeyUpA, evKeyDownA] : List RawEvent).Perm [evKeyDownA, evKeyUpA] :=
    List.Perm.swap evKeyDownA evKeyUpA []
  exact ⟨hp, C6_extraction_order.1 _ _ hp, C6_extraction_order.2.1 _ _ hp⟩

/-! ## Decoder and scoring pipeline (`feature_extractor.py` lines 8-18 and
178-187; `backend/app.py` lines 215-353)

`decrypt_and_decode_data` wraps Base64 decoding and JSON parsing of the
opaque payload in `try/except Exception` and returns `[]` on any failure.
The transport codec itself is library code, so a payload is modelled
abstractly as either decoding to an event batch or failing. -/

/-- An incoming `sessionData` payload: either it Base64/JSON-decodes to an
event batch, or decoding raises (malformed Base64, invalid JSON, ...). -/
inductive Payload where
  | ok (events : List RawEvent)
  | bad
deriving DecidableEq

/-- `decrypt_and_decode_data` (lines 8-18): the decoded events, or `[]` on
any decode/parse failure — the `except` swallows every exception. -/
def decrypt_and_decode_data : Payload → List RawEvent
  | Payload.ok events => events
  | Payload.bad => []

/-- `process_raw_data` (lines 178-187): decode, return `{}` for an empty
batch, else extract and normalize with the built-in calibration table. -/
def process_raw_data (sqrtF : ℚ → ℚ) (atan2F : ℚ → ℚ → ℚ)
    (payload : Payload) : FDict :=
  let raw_events := decrypt_and_decode_data payload
  if raw_events.isEmpty then []
  else normalize_features (extract_web_features sqrtF atan2F raw_events)
    default_min_max_values

/-- The JSON fields of the `/api/collect_behavior` response that the claims
constrain. -/
structure Response where
  status : String
  risk_score : ℚ
  action : String
deriving DecidableEq

/-- The scoring path of `collect_behavior` (app.py lines 254-294 and
347-353): an empty processed-feature dict short-circuits to the documented
`risk_score = 0.5` / `action = "allow"` fallback (line 257); otherwise the
risk score and the pure decision policy determine the response. -/
def collect_behavior_response (sqrtF : ℚ → ℚ) (atan2F : ℚ → ℚ → ℚ)
    (payload : Payload) (user_profile : Option FDict) : Response :=
  let processed_features := process_raw_data sqrtF atan2F payload
  if processed_features.isEmpty then
    { status := "error", risk_score := 5/10, action := "allow" }
  else
    let risk_score := get_risk_score processed_features user_profile
    { status := "success", risk_score := risk_score, action := decide_action risk_score }

/-- C8: the decoder returns the decoded event sequence, or the empty sequence
on any decode failure (it never raises); downstream, an undecodable payload
yields an empty feature vector and the documented fallback response
`risk_score = 0.5`, `action = allow` — the pipeline never hard-fails. -/
theorem C8_decode_failure_fallback (sqrtF : ℚ → ℚ) (atan2F : ℚ → ℚ → ℚ) :
    (∀ events : List RawEvent,
        decrypt_and_decode_data (Payload.ok events) = events) ∧
    decrypt_and_decode_data Payload.bad = [] ∧
    process_raw_data sqrtF atan2F Payload.bad = [] ∧
    (∀ user_profile : Option FDict,
        collect_behavior_response sqrtF atan2F Payload.bad user_profile
          = { status := "error", risk_score := 5/10, action := "allow" }) :=
  ⟨fun _ => rfl, rfl, rfl, fun _ => rfl⟩

/-! ## Alert emission (`backend/app.py`, lines 271-288 and 300-344)

Two code paths write to `alert_logs`.  The first (lines 276-288) runs inside
the `risk_score >= 0.8` decision branch and always inserts one alert with
reason `"High risk behavior pattern detected"`.  The second (lines 311-341),
commented as trigger 1 (`risk_score >= 0.9`) and trigger 2 (three sessions
with `risk_score >= 0.8` in the trailing 10 minutes), is inside the
session-log `try` block and is broken Python: on the `risk_score >= 0.9`
branch the subsequent `if count >= 3` reads `count`, which is only assigned
in the `else` branch, and the `else` branch reads `mongo_db`, a name never
bound anywhere in app.py (the client is `mongo_db_direct`) — so the block
always raises `NameError`, which the enclosing `except` at line 343 swallows
before any alert insert is reached. -/

/-- One record written to `alert_logs` (ids and timestamps elided). -/
structure AlertRecord where
  reason : String
  risk_score : ℚ
deriving DecidableEq

/-- The unbound name that aborts the second alert block. -/
inductive PyNameError where
  | unboundCount
  | unboundMongoDb
deriving DecidableEq

/-- The alert written by the `risk_score >= 0.8` decision branch
(app.py, lines 272-288). -/
def deny_access_alert (risk_score : ℚ) : List AlertRecord :=
  if risk_score ≥ 8/10 then
    [{ reason := "High risk behavior pattern detected", risk_score := risk_score }]
  else []

/-- The alert-evaluator block (app.py, lines 311-341): whichever branch the
score selects dereferences an unbound name before any alert can be built, so
the block's outcome is always a `NameError`. -/
def alert_evaluator_block (risk_score : ℚ) : Except PyNameError (List AlertRecord) :=
  if risk_score ≥ 9/10 then Except.error PyNameError.unboundCount
  else Except.error PyNameError.unboundMongoDb

/-- All alerts inserted while scoring one session: the decision-branch alert,
plus whatever the evaluator block manages to insert before its exception is
caught (nothing, in fact). -/
def alerts_emitted (risk_score : ℚ) : List AlertRecord :=
  deny_access_alert risk_score ++
    (match alert_evaluator_block risk_score with
     | Except.ok alerts => alerts
     | Except.error _ => [])

/-- Modelled from the spec (§4.7): the claimed alert condition — risk at
least `0.9`, or at least 3 sessions with risk at least `0.8` (current one
included) whose timestamps lie in the trailing 10-minute window. -/
def claimed_alert_condition (risk_score : ℚ) (now : ℤ)
    (history : List (ℚ × ℤ)) : Bool :=
  decide (risk_score ≥ 9/10) ||
    decide (3 ≤ ((risk_score, now) :: history).countP
      (fun s => decide (s.1 ≥ 8/10) && decide (now - 600000 ≤ s.2)))

theorem alert_evaluator_block_error (r : ℚ) :
    ∃ e : PyNameError, alert_evaluator_block r = Except.error e := by
  rw [alert_evaluator_block]
  by_cases h : r ≥ 9/10
  · rw [if_pos h]
    exact ⟨_, rfl⟩
  · rw [if_neg h]
    exact ⟨_, rfl⟩

theorem alerts_emitted_eq (r : ℚ) : alerts_emitted r = deny_access_alert r := by
  obtain ⟨e, he⟩ := alert_evaluator_block_error r
  rw [alerts_emitted, he]
  simp

/-- C4: the alert behaviour the code actually has.  At risk `0.85` with no
history, an alert **is** emitted (by the `risk_score ≥ 0.8` decision branch)
although the claimed condition (`≥ 0.9`, or 3 elevated sessions in the
window) is false; the spec'd evaluator block raises `NameError` on both of
its branches (unbound `count` at `0.9` and above, unbound `mongo_db` below),
so in general an alert is emitted iff `risk_score ≥ 0.8`, and never more than
one per session. -/
theorem C4_alert_behavior :
    alerts_emitted (85/100)
      = [{ reason := "High risk behavior pattern detected", risk_score := 85/100 }] ∧
    claimed_alert_condition (85/100) 0 [] = false ∧
    alert_evaluator_block (9/10) = Except.error PyNameError.unboundCount ∧
    alert_evaluator_block (85/100) = Except.error PyNameError.unboundMongoDb ∧
    (∀ r : ℚ, alerts_emitted r ≠ [] ↔ 8/10 ≤ r) ∧
    (∀ r : ℚ, (alerts_emitted r).length ≤ 1) := by
  refine ⟨?_, ?_, ?_, ?_, fun r => ?_, fun r => ?_⟩
  · rw [alerts_emitted_eq, deny_access_alert, if_pos (by norm_num)]
  · rw [claimed_alert_condition]
    simp only [List.countP_cons, List.countP_nil]
    norm_num
  · rw [alert_evaluator_block, if_pos (by norm_num)]
  · rw [alert_evaluator_block, if_neg (by norm_num)]
  · rw [alerts_emitted_eq, deny_access_alert]
    by_cases h : r ≥ 8/10
    · rw [if_pos h]
      simpa using h
    · rw [if_neg h]
      simpa using h
  · rw [alerts_emitted_eq, deny_access_alert]
    by_cases h : r ≥ 8/10
    · rw [if_pos h]
      simp
    · rw [if_neg h]
      simp
